import Mathlib

/-!
Shallow embedding of the PasteLite backend record-lifecycle and
read-consumption engine.

Sources embedded here:
- the Mongoose `Paste` schema (content, createdAt, expiresAt, maxViews,
  viewsUsed) — structure `Paste`;
- the `POST /api/pastes` handler (expiry computation `currentTime +
  ttl_seconds * 1000` guarded by JS truthiness of `ttl_seconds`, and the
  coercion `maxViews: max_views || null`) — `mkPaste`;
- the `express-validator` rules of `validateCreatePaste` — `ValidCreateBody`;
- the `GET /api/pastes/:id` handler: ObjectId regex check, `findById`,
  expiry check `expiresAt <= currentTime`, view-limit check
  `viewsUsed >= maxViews`, the separate `findByIdAndUpdate` with
  `{$inc: {viewsUsed: 1}}`, the re-read, and the `remaining_views`
  computation clamped at 0 — `checkPhase`, `incViews`, `buildResponse`,
  composed sequentially in `consumeAndRead`;
- `getCurrentTime` from `utils/time.js`, including a model of JavaScript
  `parseInt(s, 10)` — `parseInt10`, `getCurrentTime`.

Times are milliseconds since the epoch, modelled as `Int` (the JS code
works with `Date.getTime()` numbers).  The MongoDB collection is modelled
as a keyed store `String → Option Paste`; `findByIdAndUpdate` with `$inc`
becomes `incViews`.  Backend accesses are traced as a `List BackendOp`
so that frame properties ("no backend call") are statable.
-/

/-- A stored paste document, mirroring the Mongoose schema. -/
structure Paste where
  content : String
  createdAt : Int
  expiresAt : Option Int
  maxViews : Option Int
  viewsUsed : Int
deriving DecidableEq, Repr

/-- The MongoDB collection keyed by `_id` (a 24-hex-char ObjectId string). -/
def Store : Type := String → Option Paste

/-- The empty collection. -/
def emptyStore : Store := fun _ => none

/-- Insert a document under a key (backend insert-with-key). -/
def insertPaste (s : Store) (id : String) (p : Paste) : Store :=
  fun k => if k = id then some p else s k

/-- Lookup by key, the `Paste.findById` call. -/
def findById (s : Store) (id : String) : Option Paste := s id

/-- The `Paste.findByIdAndUpdate` call with an `$inc` of `viewsUsed` by 1:
the separate, unconditional increment the handler issues after its checks. -/
def incViews (s : Store) (id : String) : Store :=
  fun k =>
    if k = id then
      match s k with
      | some p => some { p with viewsUsed := p.viewsUsed + 1 }
      | none => none
    else s k

/-- A backend (MongoDB) operation, for tracing which calls a request makes. -/
inductive BackendOp where
  | findByIdOp (id : String)
  | incViewsOp (id : String)
deriving DecidableEq, Repr

/-- The HTTP-level outcome of `GET /api/pastes/:id`: a 200 JSON body with
content, remaining views and expiry, or an error status with its message. -/
inductive FetchResult where
  | ok (content : String) (remainingViews : Option Int) (expiresAt : Option Int)
  | err (status : Nat) (msg : String)
deriving DecidableEq, Repr

/-- Whether a fetch outcome is the 200 success. -/
def FetchResult.isOk : FetchResult → Bool
  | .ok _ _ _ => true
  | .err _ _ => false

/-- The ObjectId format check `id.match(/^[0-9a-fA-F]{24}$/)`. -/
def isValidObjectId (id : String) : Bool :=
  id.length = 24 && id.toList.all fun c =>
    ('0' ≤ c && c ≤ '9') || ('a' ≤ c && c ≤ 'f') || ('A' ≤ c && c ≤ 'F')

/-- The expiry test `paste.expiresAt && new Date(paste.expiresAt).getTime()
<= currentTime` (a Date object is always truthy, `null` is falsy). -/
def expiredCheck (p : Paste) (now : Int) : Bool :=
  match p.expiresAt with
  | some e => decide (e ≤ now)
  | none => false

/-- The view-budget test `paste.maxViews !== null && paste.viewsUsed >=
paste.maxViews`. -/
def exhaustedCheck (p : Paste) : Bool :=
  match p.maxViews with
  | some m => decide (m ≤ p.viewsUsed)
  | none => false

/-- The read-only first half of the `GET /api/pastes/:id` handler: ObjectId
validation, `findById`, expiry check, view-limit check.  Returns `some r`
when the handler returns early with `r`, `none` when it proceeds to the
increment; paired with the backend calls it made. -/
def checkPhase (s : Store) (id : String) (now : Int) :
    Option FetchResult × List BackendOp :=
  if isValidObjectId id then
    match findById s id with
    | none => (some (.err 404 "Paste not found or unavailable"), [.findByIdOp id])
    | some paste =>
      if expiredCheck paste now then
        (some (.err 404 "Paste not found or unavailable"), [.findByIdOp id])
      else if exhaustedCheck paste then
        (some (.err 404 "Paste not found or unavailable"), [.findByIdOp id])
      else
        (none, [.findByIdOp id])
  else
    (some (.err 404 "Paste not found or unavailable"), [])

/-- The response-building tail of the handler: re-read the document,
compute `remaining_views = maxViews - viewsUsed` clamped at 0 (or `null`),
and return the 200 body.  A missing document here would make the JS
dereference `updatedPaste.maxViews` throw, caught as a 500. -/
def buildResponse (s : Store) (id : String) : FetchResult :=
  match findById s id with
  | some u =>
    let remaining : Option Int :=
      match u.maxViews with
      | some m => some (if m - u.viewsUsed < 0 then 0 else m - u.viewsUsed)
      | none => none
    .ok u.content remaining u.expiresAt
  | none => .err 500 "Internal server error"

/-- The full `GET /api/pastes/:id` handler run sequentially (no interleaved
callers): checks, then the `$inc`, then the re-read and response.  Returns
the outcome, the store afterwards, and the trace of backend calls. -/
def consumeAndRead (s : Store) (id : String) (now : Int) :
    FetchResult × Store × List BackendOp :=
  match checkPhase s id now with
  | (some r, ops) => (r, s, ops)
  | (none, ops) =>
    let s2 := incViews s id
    (buildResponse s2 id, s2, ops ++ [.incViewsOp id, .findByIdOp id])

/-- The request body of `POST /api/pastes` after JSON parsing:
`content`, optional `ttl_seconds`, optional `max_views`. -/
structure CreateBody where
  content : String
  ttlSeconds : Option Int
  maxViewsInput : Option Int
deriving DecidableEq, Repr

/-- The document the `POST /api/pastes` handler persists: `expiresAt`
computed only when `ttl_seconds` is truthy (0 is falsy in JS), and
`maxViews: max_views || null` (0 is falsy, so coerced to `null`). -/
def mkPaste (b : CreateBody) (now : Int) : Paste :=
  { content := b.content
    createdAt := now
    expiresAt :=
      match b.ttlSeconds with
      | some t => if t = 0 then none else some (now + t * 1000)
      | none => none
    maxViews :=
      match b.maxViewsInput with
      | some m => if m = 0 then none else some m
      | none => none
    viewsUsed := 0 }

/-- Whether a string survives `.trim().notEmpty()`: it holds some
non-whitespace character. -/
def hasNonSpace (s : String) : Bool :=
  s.toList.any fun c => !(c = ' ' || c = '\t' || c = '\n' || c = '\r')

/-- The `validateCreatePaste` express-validator rules: `content` non-empty
after trimming, `ttl_seconds` optional integer ≥ 1, `max_views` optional
integer ≥ 1. -/
def ValidCreateBody (b : CreateBody) : Prop :=
  hasNonSpace b.content = true ∧
  (∀ t, b.ttlSeconds = some t → 1 ≤ t) ∧
  (∀ m, b.maxViewsInput = some m → 1 ≤ m)

/-- One Engine operation on the collection: a validated create under a
fresh id, or any `GET /api/pastes/:id` request. -/
inductive EngineStep : Store → Store → Prop where
  | create (s : Store) (b : CreateBody) (now : Int) (id : String) :
      ValidCreateBody b → s id = none →
      EngineStep s (insertPaste s id (mkPaste b now))
  | consume (s : Store) (id : String) (now : Int) :
      EngineStep s (consumeAndRead s id now).2.1

/-- Collections reachable from the empty collection by Engine operations. -/
def ReachableStore (s : Store) : Prop :=
  Relation.ReflTransGen EngineStep emptyStore s

/-- JS whitespace skipped by `parseInt` before the number. -/
def isJsSpace (c : Char) : Bool :=
  c = ' ' || c = '\t' || c = '\n' || c = '\r'

/-- A decimal digit. -/
def isDecDigit (c : Char) : Bool :=
  '0' ≤ c && c ≤ '9'

/-- Model of JavaScript `parseInt(s, 10)`: skip leading whitespace, read an
optional sign, then the longest prefix of decimal digits; `none` stands for
`NaN` (no digits found). -/
def parseInt10 (s : String) : Option Int :=
  let cs := s.toList.dropWhile isJsSpace
  let signAndRest : Int × List Char :=
    match cs with
    | '+' :: r => (1, r)
    | '-' :: r => (-1, r)
    | r => (1, r)
  let ds := signAndRest.2.takeWhile isDecDigit
  if ds.isEmpty then none
  else some (signAndRest.1 *
    (ds.foldl (fun acc c => acc * 10 + (c.toNat - '0'.toNat)) 0 : Nat))

/-- The `getCurrentTime` function from `utils/time.js`: when `TEST_MODE` is enabled and
the `x-test-now-ms` header is present (and truthy — an empty string is
falsy), `parseInt` it and return it if it is a number greater than 0;
otherwise fall back to `Date.now()` (`realNow`). -/
def getCurrentTime (testMode : Bool) (header : Option String) (realNow : Int) : Int :=
  match testMode, header with
  | true, some h =>
    if h = "" then realNow
    else
      match parseInt10 h with
      | some t => if 0 < t then t else realNow
      | none => realNow
  | _, _ => realNow

/-- The override instant a request carries, as the code would read it:
the header `parseInt`ed, kept only when it is a number greater than 0. -/
def headerInstant (header : Option String) : Option Int :=
  match header with
  | some h =>
    match parseInt10 h with
    | some t => if 0 < t then some t else none
    | none => none
  | none => none

/-! ### Interleaved execution of concurrent `GET /api/pastes/:id` requests

The handler is split at its two `await` boundaries that matter for the
shared counter: the read-only check phase, the `$inc`, and the re-read.
A caller is a little program stepping through those phases; the store is
the shared MongoDB state; a schedule picks which caller runs its next
phase.  Running a schedule with a single caller to completion agrees with
the sequential `consumeAndRead`. -/

/-- Where a concurrent caller is in the handler. -/
inductive CallerPhase where
  | ready
  | willInc
  | willReread
  | finished (r : FetchResult)
deriving DecidableEq, Repr

/-- A concurrent caller: the id it requests, the `now` its request
evaluates to, and its current phase. -/
structure CallerState where
  id : String
  now : Int
  phase : CallerPhase
deriving DecidableEq, Repr

/-- Run one phase of one caller against the shared store. -/
def stepCaller (s : Store) (c : CallerState) : CallerState × Store :=
  match c.phase with
  | .ready =>
    match (checkPhase s c.id c.now).1 with
    | some r => ({ c with phase := .finished r }, s)
    | none => ({ c with phase := .willInc }, s)
  | .willInc => ({ c with phase := .willReread }, incViews s c.id)
  | .willReread => ({ c with phase := .finished (buildResponse s c.id) }, s)
  | .finished _ => (c, s)

/-- Run a schedule: at each tick, the named caller executes its next
phase (out-of-range indices are skipped). -/
def runSched : List Nat → List CallerState × Store → List CallerState × Store
  | [], sys => sys
  | i :: rest, (cs, s) =>
    match cs[i]? with
    | none => runSched rest (cs, s)
    | some c =>
      let cs2 := stepCaller s c
      runSched rest (cs.set i cs2.1, cs2.2)

/-- The remaining-views value the handler computes after a successful
increment of a document that held `p` before it: the post-increment
`maxViews - viewsUsed` clamped at 0, or `null` when `maxViews` is unset. -/
def remainingAfter (p : Paste) : Option Int :=
  match p.maxViews with
  | some m =>
    some (if m - (p.viewsUsed + 1) < 0 then 0 else m - (p.viewsUsed + 1))
  | none => none

/-- The store after `k` sequential `GET /api/pastes/:id` requests. -/
def consumeIter (s : Store) (id : String) (now : Int) : Nat → Store
  | 0 => s
  | k + 1 => (consumeAndRead (consumeIter s id now k) id now).2.1

/-- The per-document bounds of the schema and the handler: `viewsUsed`
is non-negative and within `maxViews` whenever `maxViews` is set. -/
def StoreInv (s : Store) : Prop :=
  ∀ id p, s id = some p →
    0 ≤ p.viewsUsed ∧ ∀ m, p.maxViews = some m → p.viewsUsed ≤ m

theorem incViews_self (s : Store) (id : String) (p : Paste) (h : s id = some p) :
    incViews s id id = some { p with viewsUsed := p.viewsUsed + 1 } := by
  simp [incViews, h]

theorem incViews_other (s : Store) (id k : String) (h : k ≠ id) :
    incViews s id k = s k := by
  simp [incViews, h]

theorem consume_success_store (s : Store) (id : String) (now : Int) (p : Paste)
    (hs : s id = some p) (hv : isValidObjectId id = true)
    (he : expiredCheck p now = false) (hx : exhaustedCheck p = false) :
    (consumeAndRead s id now).1 = .ok p.content (remainingAfter p) p.expiresAt ∧
    (consumeAndRead s id now).2.1 = incViews s id := by
  unfold consumeAndRead checkPhase
  have hinc : incViews s id id = some { p with viewsUsed := p.viewsUsed + 1 } :=
    incViews_self s id p hs
  simp [findById, hs, hv, he, hx, buildResponse, hinc, remainingAfter]

theorem consume_cases (s : Store) (id : String) (now : Int) :
    ((consumeAndRead s id now).1 = .err 404 "Paste not found or unavailable" ∧
      (consumeAndRead s id now).2.1 = s) ∨
    (∃ p, s id = some p ∧ isValidObjectId id = true ∧
      expiredCheck p now = false ∧ exhaustedCheck p = false ∧
      (consumeAndRead s id now).1 = .ok p.content (remainingAfter p) p.expiresAt ∧
      (consumeAndRead s id now).2.1 = incViews s id) := by
  cases hv : isValidObjectId id with
  | false =>
    left
    unfold consumeAndRead checkPhase
    simp [hv]
  | true =>
    cases hf : s id with
    | none =>
      left
      unfold consumeAndRead checkPhase
      simp [hv, findById, hf]
    | some p =>
      cases he : expiredCheck p now with
      | true =>
        left
        unfold consumeAndRead checkPhase
        simp [hv, findById, hf, he]
      | false =>
        cases hx : exhaustedCheck p with
        | true =>
          left
          unfold consumeAndRead checkPhase
          simp [hv, findById, hf, he, hx]
        | false =>
          right
          exact ⟨p, rfl, rfl, he, hx,
            (consume_success_store s id now p hf hv he hx).1,
            (consume_success_store s id now p hf hv he hx).2⟩

theorem consume_fail_result (s : Store) (id : String) (now : Int)
    (h : ((consumeAndRead s id now).1).isOk = false) :
    (consumeAndRead s id now).1 = .err 404 "Paste not found or unavailable" := by
  rcases consume_cases s id now with ⟨hr, _⟩ | ⟨p, _, _, _, _, hr, _⟩
  · exact hr
  · rw [hr] at h
    simp [FetchResult.isOk] at h

theorem storeInv_empty : StoreInv emptyStore := by
  intro id p h
  simp [emptyStore] at h

theorem exhausted_false_lt (p : Paste) (m : Int) (hm : p.maxViews = some m)
    (hx : exhaustedCheck p = false) : p.viewsUsed < m := by
  simp [exhaustedCheck, hm] at hx
  omega

theorem mkPaste_maxViews_cases (b : CreateBody) (now : Int) (m : Int)
    (h : (mkPaste b now).maxViews = some m) :
    b.maxViewsInput = some m ∧ m ≠ 0 := by
  cases hb : b.maxViewsInput with
  | none => simp [mkPaste, hb] at h
  | some x =>
    simp only [mkPaste, hb] at h
    by_cases hx : x = 0
    · simp [hx] at h
    · simp only [if_neg hx, Option.some.injEq] at h
      subst h
      exact ⟨rfl, hx⟩

theorem storeInv_step (s s2 : Store) (hstep : EngineStep s s2) (hinv : StoreInv s) :
    StoreInv s2 := by
  cases hstep with
  | create b now id hb hfresh =>
    intro k q hk
    by_cases hkid : k = id
    · subst hkid
      simp only [insertPaste, if_pos rfl] at hk
      cases hk
      refine ⟨le_refl 0, ?_⟩
      intro m hm
      obtain ⟨hbm, hm0⟩ := mkPaste_maxViews_cases b now m hm
      have h1 : 1 ≤ m := hb.2.2 m hbm
      simp [mkPaste]
      omega
    · simp only [insertPaste, if_neg hkid] at hk
      exact hinv k q hk
  | consume id now =>
    rcases consume_cases s id now with ⟨_, hstore⟩ | ⟨p, hp, _, _, hx, _, hstore⟩
    · rw [hstore]
      exact hinv
    · rw [hstore]
      intro k q hk
      by_cases hkid : k = id
      · subst hkid
        rw [incViews_self s k p hp] at hk
        cases hk
        obtain ⟨h0, hbnd⟩ := hinv k p hp
        refine ⟨by simpa using (by omega : (0:Int) ≤ p.viewsUsed + 1), ?_⟩
        intro m hm
        simp only at hm ⊢
        have hlt : p.viewsUsed < m := exhausted_false_lt p m hm hx
        omega
      · rw [incViews_other s id k hkid] at hk
        exact hinv k q hk

theorem storeInv_of_reachable (s : Store) (h : ReachableStore s) : StoreInv s := by
  induction h with
  | refl => exact storeInv_empty
  | tail _ hstep ih => exact storeInv_step _ _ hstep ih

theorem viewsUsed_mono (s s2 : Store) (hstep : EngineStep s s2) (id : String)
    (p q : Paste) (hp : s id = some p) (hq : s2 id = some q) :
    p.viewsUsed ≤ q.viewsUsed := by
  cases hstep with
  | create b now idc hb hfresh =>
    by_cases hid : id = idc
    · subst hid
      rw [hfresh] at hp
      cases hp
    · simp only [insertPaste, if_neg hid] at hq
      rw [hp] at hq
      cases hq
      exact le_refl _
  | consume idc now =>
    rcases consume_cases s idc now with ⟨_, hstore⟩ | ⟨p2, hp2, _, _, _, _, hstore⟩
    · rw [hstore] at hq
      rw [hp] at hq
      cases hq
      exact le_refl _
    · rw [hstore] at hq
      by_cases hid : id = idc
      · subst hid
        rw [incViews_self s id p2 hp2] at hq
        rw [hp] at hp2
        cases hp2
        cases hq
        simp only
        omega
      · rw [incViews_other s idc id hid] at hq
        rw [hp] at hq
        cases hq
        exact le_refl _

theorem consumeIter_unlimited (s : Store) (id : String) (now : Int) (p : Paste)
    (hs : s id = some p) (hv : isValidObjectId id = true)
    (hexp : p.expiresAt = none) (hmax : p.maxViews = none) :
    ∀ k : Nat, consumeIter s id now k id =
      some { p with viewsUsed := p.viewsUsed + (k : Int) } := by
  obtain ⟨c, ca, ea, mv, vu⟩ := p
  simp only at hexp hmax
  subst hexp
  subst hmax
  intro k
  induction k with
  | zero => simpa [consumeIter] using hs
  | succ k ih =>
    have hstep := consume_success_store (consumeIter s id now k) id now
      ⟨c, ca, none, none, vu + (k : Int)⟩ ih hv
      (by simp [expiredCheck]) (by simp [exhaustedCheck])
    show (consumeAndRead (consumeIter s id now k) id now).2.1 id = _
    rw [hstep.2, incViews_self _ id _ ih]
    simp [Paste.mk.injEq]
    ring

/-! ### Concrete fixtures for the race counterexample and the witnesses -/

/-- A well-formed 24-hex-character ObjectId. -/
def oidA : String := "aaaaaaaaaaaaaaaaaaaaaaaa"

/-- A paste with a view budget of 1, not yet read. -/
def pasteLimited : Paste := ⟨"secret", 0, none, some 1, 0⟩

/-- A store holding only `pasteLimited` under `oidA`. -/
def storeLimited : Store := insertPaste emptyStore oidA pasteLimited

/-- A paste with budget 2 and one view already consumed. -/
def pasteHalf : Paste := ⟨"hello", 0, none, some 2, 1⟩

/-- A store holding only `pasteHalf` under `oidA`. -/
def storeHalf : Store := insertPaste emptyStore oidA pasteHalf

/-- A paste created at 1000 with a 60-second TTL, expiring at 61000. -/
def pasteTimed : Paste := ⟨"timed", 1000, some 61000, none, 0⟩

/-- A store holding only `pasteTimed` under `oidA`. -/
def storeTimed : Store := insertPaste emptyStore oidA pasteTimed

/-- A budget-1 paste whose single view is already consumed. -/
def pasteUsedUp : Paste := ⟨"gone", 0, none, some 1, 1⟩

/-- A store holding only `pasteUsedUp` under `oidA`. -/
def storeUsedUp : Store := insertPaste emptyStore oidA pasteUsedUp

/-- A paste with no TTL and no view budget. -/
def pasteOpen : Paste := ⟨"open", 0, none, none, 0⟩

/-- A store holding only `pasteOpen` under `oidA`. -/
def storeOpen : Store := insertPaste emptyStore oidA pasteOpen

/-- C1: the consumption path is not one atomic conditional-increment — the
handler runs its liveness check and its unconditional `$inc` as separate
backend operations — so the at-most-N guarantee fails under concurrency.
Against a `maxViews = 1` record, the interleaving in which both callers run
the check phase before either increments makes both requests succeed and
drives `viewsUsed` to 2 > 1, while the same two requests run sequentially
yield exactly one success. -/
theorem consume_race_two_successes :
    (runSched [0, 1, 0, 0, 1, 1]
        ([⟨oidA, 5, .ready⟩, ⟨oidA, 5, .ready⟩], storeLimited)).1 =
      [⟨oidA, 5, .finished (.ok "secret" (some 0) none)⟩,
       ⟨oidA, 5, .finished (.ok "secret" (some 0) none)⟩] ∧
    (runSched [0, 1, 0, 0, 1, 1]
        ([⟨oidA, 5, .ready⟩, ⟨oidA, 5, .ready⟩], storeLimited)).2 oidA =
      some ⟨"secret", 0, none, some 1, 2⟩ ∧
    ((consumeAndRead storeLimited oidA 5).1).isOk = true ∧
    (consumeAndRead (consumeAndRead storeLimited oidA 5).2.1 oidA 5).1 =
      .err 404 "Paste not found or unavailable" := by
  decide

/-- C2: in every store reachable through the Engine's operations (validated
creates and sequential consume-and-read requests), every stored document has
`0 ≤ viewsUsed` and `viewsUsed ≤ maxViews` whenever `maxViews` is set; no
single operation decreases any document's `viewsUsed`; and a freshly created
document starts at `viewsUsed = 0`. -/
theorem views_invariant_reachable :
    (∀ s, ReachableStore s → ∀ id p, s id = some p →
      0 ≤ p.viewsUsed ∧ ∀ m, p.maxViews = some m → p.viewsUsed ≤ m) ∧
    (∀ s s2, EngineStep s s2 → ∀ id p q, s id = some p → s2 id = some q →
      p.viewsUsed ≤ q.viewsUsed) ∧
    (∀ b now, (mkPaste b now).viewsUsed = 0) := by
  refine ⟨fun s hs => storeInv_of_reachable s hs, ?_, fun b now => rfl⟩
  intro s s2 h id p q hp hq
  exact viewsUsed_mono s s2 h id p q hp hq

/-- Witness for C2: a store reached by one validated create of a budget-2
paste; the stored document satisfies the bounds. -/
theorem views_invariant_reachable_witness :
    0 ≤ (mkPaste ⟨"hi", none, some 2⟩ 5).viewsUsed ∧
    (mkPaste ⟨"hi", none, some 2⟩ 5).viewsUsed ≤ 2 := by
  have hvb : ValidCreateBody ⟨"hi", none, some 2⟩ := by
    refine ⟨by decide, ?_, ?_⟩
    · intro t ht
      simp at ht
    · intro m hm
      simp at hm
      omega
  have hreach :
      ReachableStore (insertPaste emptyStore oidA (mkPaste ⟨"hi", none, some 2⟩ 5)) :=
    Relation.ReflTransGen.single
      (EngineStep.create emptyStore ⟨"hi", none, some 2⟩ 5 oidA hvb rfl)
  have h := views_invariant_reachable.1 _ hreach oidA
    (mkPaste ⟨"hi", none, some 2⟩ 5) (by simp [insertPaste])
  exact ⟨h.1, h.2 2 (by decide)⟩

/-- C3: for a stored, non-expired record with budget `m > 0` under a valid
id, a request arriving at `viewsUsed = m - 1` is served (the m-th read of an
m-budget succeeds), and a request arriving at `viewsUsed = m` gets the 404
unavailable response. -/
theorem consume_budget_boundary (s : Store) (id : String) (now : Int)
    (p : Paste) (m : Int) (hs : s id = some p) (hv : isValidObjectId id = true)
    (hm : p.maxViews = some m) (_hpos : 0 < m)
    (he : expiredCheck p now = false) :
    (p.viewsUsed = m - 1 → ((consumeAndRead s id now).1).isOk = true) ∧
    (p.viewsUsed = m → (consumeAndRead s id now).1 =
      .err 404 "Paste not found or unavailable") := by
  constructor
  · intro hvu
    have hx : exhaustedCheck p = false := by
      simp [exhaustedCheck, hm]
      omega
    rw [(consume_success_store s id now p hs hv he hx).1]
    rfl
  · intro hvu
    have hx : exhaustedCheck p = true := by
      simp [exhaustedCheck, hm]
      omega
    unfold consumeAndRead checkPhase
    simp [hv, findById, hs, he, hx]

/-- Witness for C3: the second read of a budget-2 paste with one view
consumed succeeds. -/
theorem consume_budget_boundary_witness :
    ((consumeAndRead storeHalf oidA 5).1).isOk = true :=
  (consume_budget_boundary storeHalf oidA 5 pasteHalf 2 (by decide) (by decide)
    (by decide) (by decide) (by decide)).1 (by decide)

/-- C4: expiry is decided by `now >= expiresAt`: for a stored record with
`expiresAt = e`, the expiry test holds exactly when `e ≤ now`, so a request
strictly before `e` is not judged expired, and any request at `now ≥ e`
gets the 404 unavailable response. -/
theorem consume_expiry_boundary (s : Store) (id : String) (now : Int)
    (p : Paste) (e : Int) (hs : s id = some p) (he : p.expiresAt = some e) :
    (expiredCheck p now = true ↔ e ≤ now) ∧
    (now < e → expiredCheck p now = false) ∧
    (e ≤ now → (consumeAndRead s id now).1 =
      .err 404 "Paste not found or unavailable") := by
  have hiff : expiredCheck p now = true ↔ e ≤ now := by
    simp [expiredCheck, he]
  refine ⟨hiff, ?_, ?_⟩
  · intro hlt
    rcases Bool.eq_false_or_eq_true (expiredCheck p now) with h | h
    · exact absurd (hiff.mp h) (by omega)
    · exact h
  · intro hle
    cases hv : isValidObjectId id with
    | false =>
      unfold consumeAndRead checkPhase
      simp [hv]
    | true =>
      unfold consumeAndRead checkPhase
      simp [hv, findById, hs, hiff.mpr hle]

/-- Witness for C4: a paste created at 1000 with a 60 s TTL is not judged
expired at 60999 and is unavailable at 61000. -/
theorem consume_expiry_boundary_witness :
    expiredCheck pasteTimed 60999 = false ∧
    (consumeAndRead storeTimed oidA 61000).1 =
      .err 404 "Paste not found or unavailable" :=
  ⟨(consume_expiry_boundary storeTimed oidA 60999 pasteTimed 61000 (by decide)
      (by decide)).2.1 (by decide),
   (consume_expiry_boundary storeTimed oidA 61000 pasteTimed 61000 (by decide)
      (by decide)).2.2 (by decide)⟩

/-- C5: a request that does not return the 200 success leaves the store
untouched, and a successful request mutates exactly the requested document,
raising its `viewsUsed` by exactly one and changing nothing else. -/
theorem consume_failure_frame (s : Store) (id : String) (now : Int) :
    (((consumeAndRead s id now).1).isOk = false →
      (consumeAndRead s id now).2.1 = s) ∧
    (((consumeAndRead s id now).1).isOk = true →
      ∃ p, s id = some p ∧
        (consumeAndRead s id now).2.1 id =
          some { p with viewsUsed := p.viewsUsed + 1 } ∧
        ∀ k, k ≠ id → (consumeAndRead s id now).2.1 k = s k) := by
  rcases consume_cases s id now with ⟨hr, hstore⟩ | ⟨p, hp, _, _, _, hr, hstore⟩
  · constructor
    · intro _
      exact hstore
    · intro hok
      rw [hr] at hok
      simp [FetchResult.isOk] at hok
  · constructor
    · intro hok
      rw [hr] at hok
      simp [FetchResult.isOk] at hok
    · intro _
      exact ⟨p, hp, by rw [hstore]; exact incViews_self s id p hp,
        fun k hk => by rw [hstore]; exact incViews_other s id k hk⟩

/-- Witness for C5: a read of an exhausted budget-1 paste leaves the store
exactly as it was. -/
theorem consume_failure_frame_witness :
    (consumeAndRead storeUsedUp oidA 5).2.1 = storeUsedUp :=
  (consume_failure_frame storeUsedUp oidA 5).1 (by decide)

/-- C6: any two failing requests — whatever mix of malformed id, missing
record, expiry or exhausted budget caused them — produce the identical
response (status 404, same undifferentiated message), so the outcome does
not reveal which cause applied or whether the record exists. -/
theorem consume_uniform_unavailable (s1 : Store) (id1 : String) (now1 : Int)
    (s2 : Store) (id2 : String) (now2 : Int)
    (h1 : ((consumeAndRead s1 id1 now1).1).isOk = false)
    (h2 : ((consumeAndRead s2 id2 now2).1).isOk = false) :
    (consumeAndRead s1 id1 now1).1 = (consumeAndRead s2 id2 now2).1 := by
  rw [consume_fail_result s1 id1 now1 h1, consume_fail_result s2 id2 now2 h2]

/-- Witness for C6: a malformed-id failure and an exhausted-budget failure
return the identical response. -/
theorem consume_uniform_unavailable_witness :
    (consumeAndRead storeUsedUp "zz" 7).1 =
      (consumeAndRead storeUsedUp oidA 7).1 :=
  consume_uniform_unavailable storeUsedUp "zz" 7 storeUsedUp oidA 7
    (by decide) (by decide)

/-- C7: a successful request returns the stored content with
`remaining_views` equal to `maxViews` minus the post-increment `viewsUsed`
clamped at 0, and `null` whenever `maxViews` is unset; a record with no TTL
and no budget is served on every sequential read with `remaining_views =
null`. -/
theorem consume_remaining_views (s : Store) (id : String) (now : Int)
    (p : Paste) (hs : s id = some p) :
    (((consumeAndRead s id now).1).isOk = true →
      (consumeAndRead s id now).1 =
        .ok p.content (remainingAfter p) p.expiresAt) ∧
    (p.maxViews = none → remainingAfter p = none) ∧
    (p.expiresAt = none → p.maxViews = none → isValidObjectId id = true →
      ∀ k : Nat, (consumeAndRead (consumeIter s id now k) id now).1 =
        .ok p.content none none) := by
  refine ⟨?_, ?_, ?_⟩
  · intro hok
    rcases consume_cases s id now with ⟨hr, _⟩ | ⟨q, hq, _, _, _, hr, _⟩
    · rw [hr] at hok
      simp [FetchResult.isOk] at hok
    · rw [hs] at hq
      cases hq
      exact hr
  · intro hmax
    simp [remainingAfter, hmax]
  · intro hexp hmax hv k
    have hk := consumeIter_unlimited s id now p hs hv hexp hmax k
    have hstep := consume_success_store (consumeIter s id now k) id now
      { p with viewsUsed := p.viewsUsed + (k : Int) } hk hv
      (by simp [expiredCheck, hexp]) (by simp [exhaustedCheck, hmax])
    rw [hstep.1]
    simp [remainingAfter, hmax, hexp]

/-- Witness for C7: the fourth sequential read of a paste with no TTL and
no budget still succeeds with a `null` remaining-views value. -/
theorem consume_remaining_views_witness :
    (consumeAndRead (consumeIter storeOpen oidA 9 3) oidA 9).1 =
      .ok "open" none none :=
  (consume_remaining_views storeOpen oidA 9 pasteOpen (by decide)).2.2
    rfl rfl (by decide) 3

/-- C8: `getCurrentTime` returns the header override exactly when test mode
is on and the header parses (as JavaScript `parseInt(s, 10)`) to a number
greater than 0; in every other case (test mode off, header absent or empty,
non-numeric or non-positive value) it returns the real current time.  The
model is a total function, so the operation never fails. -/
theorem getCurrentTime_contract (testMode : Bool) (header : Option String)
    (realNow : Int) :
    (∀ t, testMode = true → headerInstant header = some t →
      getCurrentTime testMode header realNow = t) ∧
    ((testMode = false ∨ headerInstant header = none) →
      getCurrentTime testMode header realNow = realNow) := by
  constructor
  · intro t htm hh
    subst htm
    cases header with
    | none => simp [headerInstant] at hh
    | some h =>
      by_cases hne : h = ""
      · subst hne
        have hnone : headerInstant (some "") = none := by decide
        rw [hnone] at hh
        cases hh
      · simp only [headerInstant] at hh
        cases hp : parseInt10 h with
        | none => simp [hp] at hh
        | some v =>
          simp only [hp] at hh
          by_cases hpos : 0 < v
          · rw [if_pos hpos] at hh
            cases hh
            simp [getCurrentTime, hne, hp, hpos]
          · rw [if_neg hpos] at hh
            cases hh
  · intro hcase
    cases hcase with
    | inl htm =>
      subst htm
      cases header <;> simp [getCurrentTime]
    | inr hh =>
      cases testMode with
      | false => cases header <;> simp [getCurrentTime]
      | true =>
        cases header with
        | none => simp [getCurrentTime]
        | some h =>
          by_cases hne : h = ""
          · subst hne
            simp [getCurrentTime]
          · simp only [headerInstant] at hh
            cases hp : parseInt10 h with
            | none => simp [getCurrentTime, hne, hp]
            | some v =>
              simp only [hp] at hh
              by_cases hpos : 0 < v
              · rw [if_pos hpos] at hh
                cases hh
              · simp [getCurrentTime, hne, hp, hpos]

/-- Witness for C8: in test mode a header of "123" is honored, and a
non-positive header of "-5" falls back to the real time. -/
theorem getCurrentTime_contract_witness :
    getCurrentTime true (some "123") 999 = 123 ∧
    getCurrentTime true (some "-5") 999 = 999 :=
  ⟨(getCurrentTime_contract true (some "123") 999).1 123 rfl (by decide),
   (getCurrentTime_contract true (some "-5") 999).2 (Or.inr (by decide))⟩

/-- C9: a malformed identifier (failing the 24-hex-character ObjectId test)
gets the 404 unavailable response immediately, with the store untouched and
an empty backend trace: no lookup and no increment is issued. -/
theorem consume_invalid_id_no_backend (s : Store) (id : String) (now : Int)
    (h : isValidObjectId id = false) :
    consumeAndRead s id now =
      (.err 404 "Paste not found or unavailable", s, []) := by
  unfold consumeAndRead checkPhase
  simp [h]

/-- Witness for C9: a request for the syntactically invalid id "zz" fails
with no backend operation. -/
theorem consume_invalid_id_no_backend_witness :
    consumeAndRead storeOpen "zz" 7 =
      (.err 404 "Paste not found or unavailable", storeOpen, []) :=
  consume_invalid_id_no_backend storeOpen "zz" 7 (by decide)

/-- C10: the create handler's coercion `maxViews: max_views || null` turns
a `max_views` input of 0 into `null`: the persisted document carries an
unlimited view budget (`maxViews = none`) and `viewsUsed = 0`, never a
zero budget that would be dead from birth. -/
theorem create_zero_max_views_null (b : CreateBody) (now : Int)
    (h : b.maxViewsInput = some 0) :
    (mkPaste b now).maxViews = none ∧ (mkPaste b now).viewsUsed = 0 := by
  constructor
  · simp [mkPaste, h]
  · rfl

/-- Witness for C10: creating with `max_views = 0` persists an unlimited
budget. -/
theorem create_zero_max_views_null_witness :
    (mkPaste ⟨"body", some 60, some 0⟩ 1000).maxViews = none ∧
    (mkPaste ⟨"body", some 60, some 0⟩ 1000).viewsUsed = 0 :=
  create_zero_max_views_null ⟨"body", some 60, some 0⟩ 1000 rfl
